import Mathlib

/-!
Shallow embedding of the feedback-task annotation UI of this repository:
the pagination/filter controller component
(`RecordFeedbackTaskAndQuestionnaire.content.vue`, first script block) and
the questions form component (`QuestionsFormComponent`, second script block).
Each event handler and lifecycle hook is embedded as a pure function on an
explicit component state; notifications and `$root`/`$emit` events are
returned as an explicit list of emitted events.
-/

namespace ArgillaFeedback

/-- A feedback record as the components observe it: the status flags
(`isSubmitted`, `isModified`, `isDiscarded`) and the result of its
`questionAreCompletedCorrectly()` method. -/
structure Rec where
  isSubmitted : Bool
  isModified : Bool
  isDiscarded : Bool
  questionAreCompletedCorrectly : Bool
deriving DecidableEq

/-- Modelled from the spec: the view model `useRecordFeedbackTaskViewModel`
is not among the sources; per the spec, the asynchronous page fetch queries
a backend for records under the current status and search filters. The
backend is abstracted as the record available on each page for given
(status, search) filters, together with the total count for those filters.
The dataset id is fixed for a component instance and folded into it. -/
structure Backend where
  pageRecord : Int → String → String → Option Rec
  totalFor : String → String → Nat

/-- Modelled from the spec: the `records` store of the view model, holding
the loaded records per page and the total count reported by the backend. -/
structure RecordsStore where
  loaded : List (Int × Rec)
  total : Nat
deriving DecidableEq

/-- Modelled from the spec: `records.existsRecordOn(page)` checks whether a
record has been loaded for `page`. -/
def RecordsStore.existsRecordOn (st : RecordsStore) (page : Int) : Bool :=
  (st.loaded.lookup page).isSome

/-- The store before anything has been loaded. -/
def RecordsStore.empty : RecordsStore := ⟨[], 0⟩

/-- Modelled from the spec: `clearRecords()` empties the loaded records. -/
def clearRecords : RecordsStore := RecordsStore.empty

/-- Modelled from the spec: `loadRecords(datasetId, page, status, search)`
fetches the record for `page` under the filters from the backend into the
store and refreshes the total for those filters. -/
def loadRecords (b : Backend) (page : Int) (status search : String)
    (st : RecordsStore) : RecordsStore :=
  match b.pageRecord page status search with
  | some r => ⟨(page, r) :: st.loaded, b.totalFor status search⟩
  | none => ⟨st.loaded, b.totalFor status search⟩

/-- The `_status`, `_search` and `_page` URL query parameters of the route
(`this.$route.query`); each is absent or present. -/
structure RouteQuery where
  qStatus : Option String
  qSearch : Option String
  qPage : Option Int
deriving DecidableEq

/-- The component state of `RecordFeedbackTaskAndQuestionnaireComponent`:
its `data()` fields plus the records store of its view model and the
current route query (kept in sync by the watchers). -/
structure CState where
  questionFormTouched : Bool
  recordStatusToFilterWith : String
  searchTextToFilterWith : String
  currentPage : Int
  fetching : Bool
  records : RecordsStore
  route : RouteQuery
deriving DecidableEq

/-- Modelled from the spec: `RECORD_STATUS.PENDING` from the record queries
module (not among the sources); per the spec the status filter defaults to
the lowercase pending status, obtained from this constant via
`toLowerCase()`. -/
def RECORD_STATUS_PENDING : String := "PENDING"

/-- The `toLowerCase()` string method, character by character. -/
def jsToLowerCase (s : String) : String := ⟨s.data.map Char.toLower⟩

/-- Computed `statusFilterFromQuery`: `_status` from the query, defaulting
to `RECORD_STATUS.PENDING.toLowerCase()`. -/
def statusFilterFromQuery (q : RouteQuery) : String :=
  q.qStatus.getD (jsToLowerCase RECORD_STATUS_PENDING)

/-- Computed `searchFilterFromQuery`: `_search` from the query, defaulting
to the empty string. -/
def searchFilterFromQuery (q : RouteQuery) : String :=
  q.qSearch.getD ""

/-- Computed `pageFromQuery`: the numeric value of `_page`, defaulting to 1
when `_page` is nil. -/
def pageFromQuery (q : RouteQuery) : Int :=
  q.qPage.getD 1

/-- Computed `noMoreDataMessage`. -/
def noMoreDataMessage (s : CState) : String :=
  "You\x27ve reached the end of the data for the "
    ++ s.recordStatusToFilterWith ++ " queue."

/-- Assignment to `this.currentPage`; when the value actually changes, the
`currentPage` watcher pushes `_page` and `_status` into the route query. -/
def assignCurrentPage (s : CState) (v : Int) : CState :=
  if s.currentPage = v then s
  else
    { s with
      currentPage := v
      route := { s.route with
                 qPage := some v
                 qStatus := some s.recordStatusToFilterWith } }

/-- Assignment to `this.recordStatusToFilterWith`; when the value actually
changes, its watcher pushes `_status`, `_search` and `_page` into the route
query. -/
def assignStatus (s : CState) (v : String) : CState :=
  if s.recordStatusToFilterWith = v then s
  else
    { s with
      recordStatusToFilterWith := v
      route := { qStatus := some v
                 qSearch := some s.searchTextToFilterWith
                 qPage := some s.currentPage } }

/-- Assignment to `this.searchTextToFilterWith`; when the value actually
changes, its watcher pushes `_search`, `_status` and `_page` into the route
query. -/
def assignSearch (s : CState) (v : String) : CState :=
  if s.searchTextToFilterWith = v then s
  else
    { s with
      searchTextToFilterWith := v
      route := { qSearch := some v
                 qStatus := some s.recordStatusToFilterWith
                 qPage := some s.currentPage } }

/-- The `fetch()` hook: guarded by `fetching`; clears the records, loads
the current page under the current filters, and when no record exists on
the current page and the current page is not 1, resets the page to 1 and
reloads. -/
def fetchOp (b : Backend) (s : CState) : CState :=
  if s.fetching then s
  else
    let s1 := { s with fetching := true, records := clearRecords }
    let s2 := { s1 with
                records := loadRecords b s1.currentPage
                  s1.recordStatusToFilterWith s1.searchTextToFilterWith
                  s1.records }
    let s3 :=
      if !(s2.records.existsRecordOn s2.currentPage) && s2.currentPage != 1
      then
        let s' := assignCurrentPage s2 1
        { s' with
          records := loadRecords b s'.currentPage
            s'.recordStatusToFilterWith s'.searchTextToFilterWith
            s'.records }
      else s2
    { s3 with fetching := false }

/-- A filter change held in an unsaved-changes warning, to be applied by the
warning button's `onClick` when the user confirms. -/
inductive PendingFilter
  | statusFilter (value : String)
  | searchFilter (value : String)
deriving DecidableEq

/-- Events emitted by the controller component: `Notification.dispatch` of
an unsaved-changes warning (carrying its pending filter change), an
informational notice, and the root `total-records` event. -/
inductive Emit
  | warnUnsaved (pending : PendingFilter)
  | info (message : String)
  | totalRecords (value : Option Nat)
deriving DecidableEq

/-- `checkAndEmitTotalRecords`: emits the value when the search filter is
non-empty and null otherwise. -/
def checkAndEmitTotalRecords (searchFilter : String) (value : Nat) : Emit :=
  if searchFilter.length != 0 then Emit.totalRecords (some value)
  else Emit.totalRecords none

/-- `applyStatusFilter(status)`: resets the page to 1, sets the status
filter, re-fetches, then emits the total. -/
def applyStatusFilter (b : Backend) (s : CState) (status : String) :
    CState × List Emit :=
  let s1 := assignCurrentPage s 1
  let s2 := assignStatus s1 status
  let s3 := fetchOp b s2
  (s3, [checkAndEmitTotalRecords s3.searchTextToFilterWith s3.records.total])

/-- `applySearchFilter(searchFilter)`: resets the page to 1, sets the search
filter, re-fetches, then emits the total for the given search filter. -/
def applySearchFilter (b : Backend) (s : CState) (searchFilter : String) :
    CState × List Emit :=
  let s1 := assignCurrentPage s 1
  let s2 := assignSearch s1 searchFilter
  let s3 := fetchOp b s2
  (s3, [checkAndEmitTotalRecords searchFilter s3.records.total])

/-- `onSearchFilterChanged(newSearchValue)`: with unsaved form changes and a
value differing from the query's search filter, only a warning is
dispatched; with a differing value and no unsaved changes the filter is
applied; otherwise nothing happens. -/
def onSearchFilterChanged (b : Backend) (s : CState)
    (newSearchValue : String) : CState × List Emit :=
  if s.questionFormTouched
      && newSearchValue != searchFilterFromQuery s.route then
    (s, [Emit.warnUnsaved (PendingFilter.searchFilter newSearchValue)])
  else if newSearchValue != searchFilterFromQuery s.route then
    applySearchFilter b s newSearchValue
  else (s, [])

/-- `onStatusFilterChanged(newStatus)`: returns at once when the status is
already active; with unsaved form changes only a warning is dispatched;
otherwise the filter is applied. -/
def onStatusFilterChanged (b : Backend) (s : CState) (newStatus : String) :
    CState × List Emit :=
  if s.recordStatusToFilterWith == newStatus then (s, [])
  else if s.questionFormTouched then
    (s, [Emit.warnUnsaved (PendingFilter.statusFilter newStatus)])
  else applyStatusFilter b s newStatus

/-- The `onClick` of an unsaved-changes warning: confirming applies the
pending filter change. -/
def confirmPending (b : Backend) (s : CState) :
    PendingFilter → CState × List Emit
  | PendingFilter.statusFilter v => applyStatusFilter b s v
  | PendingFilter.searchFilter v => applySearchFilter b s v

/-- `onQuestionFormTouched(isTouched)`: stores the child form's touched
state in the parent. -/
def onQuestionFormTouched (s : CState) (isTouched : Bool) : CState :=
  { s with questionFormTouched := isTouched }

/-- `setCurrentPage(newPage)`: guarded by `fetching`; loads the page when no
record is loaded on it yet; moves to the page when a record exists there,
and otherwise notifies, with an informational notice, only when the
requested page lies ahead of the current one. -/
def setCurrentPage (b : Backend) (s : CState) (newPage : Int) :
    CState × List Emit :=
  if s.fetching then (s, [])
  else
    let s1 := { s with fetching := true }
    let s2 :=
      if s1.records.existsRecordOn newPage then s1
      else
        { s1 with
          records := loadRecords b newPage s1.recordStatusToFilterWith
            s1.searchTextToFilterWith s1.records }
    if s2.records.existsRecordOn newPage then
      ({ assignCurrentPage s2 newPage with fetching := false }, [])
    else if s2.currentPage < newPage then
      ({ s2 with fetching := false }, [Emit.info (noMoreDataMessage s2)])
    else
      ({ s2 with fetching := false }, [])

/-- The `created()` hook over fresh `data()`: the three view-state fields
are taken from the route query via the computed defaults. -/
def createdState (q : RouteQuery) : CState :=
  { questionFormTouched := false
    recordStatusToFilterWith := statusFilterFromQuery q
    searchTextToFilterWith := searchFilterFromQuery q
    currentPage := pageFromQuery q
    fetching := false
    records := RecordsStore.empty
    route := q }

/-- Computed `isSubmitButtonDisabled` of the questions form. -/
def isSubmitButtonDisabled (record : Rec) (isFormTouched : Bool) : Bool :=
  if record.isSubmitted then
    !isFormTouched || !record.questionAreCompletedCorrectly
  else
    !record.questionAreCompletedCorrectly

/-- Events emitted by the questions form: the `on-question-form-touched`
event to the parent, the root `are-responses-untouched` event, and the
`on-submit-responses` event. -/
inductive FormEmit
  | questionFormTouchedEv (value : Bool)
  | areResponsesUntouched (value : Bool)
  | onSubmitResponses
deriving DecidableEq

/-- `emitIsQuestionsFormTouched(isFormTouched)`: emits the touched state to
the parent and the negated state on the root bus. -/
def emitIsQuestionsFormTouched (isFormTouched : Bool) : List FormEmit :=
  [FormEmit.questionFormTouchedEv isFormTouched,
   FormEmit.areResponsesUntouched (!isFormTouched)]

/-- The `isFormTouched` watcher of the questions form: propagates the
touched state only for a submitted record. -/
def isFormTouchedWatch (record : Rec) (isFormTouched : Bool) :
    List FormEmit :=
  if record.isSubmitted then emitIsQuestionsFormTouched isFormTouched
  else []

/-- The `destroyed()` hook of the questions form: emits touched = false. -/
def destroyedEmits : List FormEmit := emitIsQuestionsFormTouched false

/-- Result of the form's `onSubmit` handler: whether `submit(record)` was
invoked, and the events emitted. -/
structure SubmitResult where
  submitted : Bool
  emits : List FormEmit
deriving DecidableEq

/-- `onSubmit()`: returns without submitting unless the questions are
completed correctly; otherwise submits and emits `on-submit-responses`. -/
def onSubmit (record : Rec) : SubmitResult :=
  if !record.questionAreCompletedCorrectly then ⟨false, []⟩
  else ⟨true, [FormEmit.onSubmitResponses]⟩

/-- Result of the deep `record` watcher of the questions form: whether
`saveDraft(record)` was invoked, and the new `isFormTouched` value. -/
structure RecordWatchResult where
  saveDraftCalled : Bool
  isFormTouched : Bool
deriving DecidableEq

/-- The deep, immediate `record` watcher: saves a draft when the record is
modified, and sets `isFormTouched` to `record.isModified`. -/
def recordWatch (record : Rec) : RecordWatchResult :=
  ⟨record.isModified, record.isModified⟩

/-! Concrete values used by witnesses and counterexamples. -/

/-- A backend with no records and zero totals. -/
def bEmpty : Backend := ⟨fun _ _ _ => none, fun _ _ => 0⟩

/-- A quiescent controller state on page 1 of the pending queue. -/
def st0 : CState :=
  { questionFormTouched := false
    recordStatusToFilterWith := "pending"
    searchTextToFilterWith := ""
    currentPage := 1
    fetching := false
    records := RecordsStore.empty
    route := ⟨none, none, none⟩ }

/-- `st0` with unsaved question-form changes. -/
def stTouched : CState := { st0 with questionFormTouched := true }

/-- `st0` with a fetch in flight. -/
def stFetching : CState := { st0 with fetching := true }

/-- A submitted record with completed questions. -/
def recSubmitted : Rec := ⟨true, false, false, true⟩

/-- A pending record with incomplete questions. -/
def recIncomplete : Rec := ⟨false, false, false, false⟩

/-! Helper lemmas on the watcher-aware assignments. -/

theorem assignCurrentPage_fields (s : CState) (v : Int) :
    (assignCurrentPage s v).currentPage = v ∧
    (assignCurrentPage s v).questionFormTouched = s.questionFormTouched ∧
    (assignCurrentPage s v).recordStatusToFilterWith
      = s.recordStatusToFilterWith ∧
    (assignCurrentPage s v).searchTextToFilterWith
      = s.searchTextToFilterWith ∧
    (assignCurrentPage s v).fetching = s.fetching ∧
    (assignCurrentPage s v).records = s.records := by
  unfold assignCurrentPage
  split
  · next h => exact ⟨h, rfl, rfl, rfl, rfl, rfl⟩
  · exact ⟨rfl, rfl, rfl, rfl, rfl, rfl⟩

theorem assignStatus_fields (s : CState) (v : String) :
    (assignStatus s v).recordStatusToFilterWith = v ∧
    (assignStatus s v).questionFormTouched = s.questionFormTouched ∧
    (assignStatus s v).currentPage = s.currentPage ∧
    (assignStatus s v).searchTextToFilterWith = s.searchTextToFilterWith ∧
    (assignStatus s v).fetching = s.fetching ∧
    (assignStatus s v).records = s.records := by
  unfold assignStatus
  split
  · next h => exact ⟨h, rfl, rfl, rfl, rfl, rfl⟩
  · exact ⟨rfl, rfl, rfl, rfl, rfl, rfl⟩

theorem assignSearch_fields (s : CState) (v : String) :
    (assignSearch s v).searchTextToFilterWith = v ∧
    (assignSearch s v).questionFormTouched = s.questionFormTouched ∧
    (assignSearch s v).currentPage = s.currentPage ∧
    (assignSearch s v).recordStatusToFilterWith
      = s.recordStatusToFilterWith ∧
    (assignSearch s v).fetching = s.fetching ∧
    (assignSearch s v).records = s.records := by
  unfold assignSearch
  split
  · next h => exact ⟨h, rfl, rfl, rfl, rfl, rfl⟩
  · exact ⟨rfl, rfl, rfl, rfl, rfl, rfl⟩

/-- C1: form submission is blocked until all required questions are
answered — the submit button is disabled and `onSubmit` returns without
submitting whenever `record.questionAreCompletedCorrectly()` is false, and
`onSubmit` submits once it is true. -/
theorem C1_submit_blocked_until_questions_completed (record : Rec)
    (isFormTouched : Bool) :
    (record.questionAreCompletedCorrectly = false →
      isSubmitButtonDisabled record isFormTouched = true ∧
      (onSubmit record).submitted = false ∧
      (onSubmit record).emits = []) ∧
    (record.questionAreCompletedCorrectly = true →
      (onSubmit record).submitted = true ∧
      (onSubmit record).emits = [FormEmit.onSubmitResponses]) := by
  constructor <;> intro h <;>
    simp [isSubmitButtonDisabled, onSubmit, h]

theorem C1_witness :
    isSubmitButtonDisabled recIncomplete true = true ∧
    (onSubmit recIncomplete).submitted = false ∧
    (onSubmit recIncomplete).emits = [] :=
  (C1_submit_blocked_until_questions_completed recIncomplete true).1 rfl

/-- C4: while `fetching` is true, a second call to `fetch()` or
`setCurrentPage()` returns immediately, leaving the whole component state
unchanged and emitting nothing. -/
theorem C4_fetching_guard (b : Backend) (s : CState) (newPage : Int)
    (h : s.fetching = true) :
    fetchOp b s = s ∧ setCurrentPage b s newPage = (s, []) := by
  unfold fetchOp setCurrentPage
  simp [h]

theorem C4_witness :
    fetchOp bEmpty stFetching = stFetching ∧
    setCurrentPage bEmpty stFetching 2 = (stFetching, []) :=
  C4_fetching_guard bEmpty stFetching 2 rfl

/-- C5: on creation, the route query maps to view state — the status filter
is `_status` defaulting to the lowercase pending status, the search filter
is `_search` defaulting to the empty string, and the current page is
`_page` defaulting to 1. -/
theorem C5_created_maps_query_to_state (q : RouteQuery) :
    (createdState q).recordStatusToFilterWith = q.qStatus.getD "pending" ∧
    (createdState q).searchTextToFilterWith = q.qSearch.getD "" ∧
    (createdState q).currentPage = q.qPage.getD 1 := by
  refine ⟨?_, rfl, rfl⟩
  show statusFilterFromQuery q = q.qStatus.getD "pending"
  unfold statusFilterFromQuery
  have h : jsToLowerCase RECORD_STATUS_PENDING = "pending" := by decide
  rw [h]

/-- C7: the deep `record` watcher invokes `saveDraft` exactly when the
record is modified, and always sets `isFormTouched` equal to
`record.isModified`. -/
theorem C7_draft_autosave_on_modification (record : Rec) :
    (recordWatch record).saveDraftCalled = record.isModified ∧
    (recordWatch record).isFormTouched = record.isModified :=
  ⟨rfl, rfl⟩

/-- C8: changing the status filter to the already-active value is a no-op —
the state is returned unchanged and nothing is dispatched, even when the
form is touched. -/
theorem C8_status_filter_same_value_noop (b : Backend) (s : CState) :
    onStatusFilterChanged b s s.recordStatusToFilterWith = (s, []) := by
  unfold onStatusFilterChanged
  simp

/-- C9: the `on-question-form-touched` event is emitted with value true
only for a submitted record; for a non-submitted record the watcher emits
nothing at all, so the parent flag (which the handler sets to the emitted
value) is never set to true by editing; on destruction the form emits
touched = false. -/
theorem C9_touched_propagated_only_when_submitted (record : Rec)
    (v : Bool) :
    (FormEmit.questionFormTouchedEv true ∈ isFormTouchedWatch record v →
      record.isSubmitted = true) ∧
    (record.isSubmitted = false → isFormTouchedWatch record v = []) ∧
    destroyedEmits = [FormEmit.questionFormTouchedEv false,
      FormEmit.areResponsesUntouched true] ∧
    (∀ s : CState, ∀ w : Bool,
      (onQuestionFormTouched s w).questionFormTouched = w) := by
  refine ⟨?_, ?_, rfl, fun s w => rfl⟩
  · intro hmem
    cases hsub : record.isSubmitted
    · simp [isFormTouchedWatch, hsub] at hmem
    · rfl
  · intro hsub
    simp [isFormTouchedWatch, hsub]

theorem C9_witness :
    recSubmitted.isSubmitted = true :=
  (C9_touched_propagated_only_when_submitted recSubmitted true).1
    (by decide)

/-- C2: with unsaved question-form changes and a filter change to a
different value, the handler dispatches only a warning, the whole state is
returned unchanged, and the filter is applied exactly when the warning
button's `onClick` is confirmed. -/
theorem C2_unsaved_changes_warn_before_filter (b : Backend) (s : CState)
    (newStatus newSearch : String)
    (ht : s.questionFormTouched = true)
    (hs : s.recordStatusToFilterWith ≠ newStatus)
    (hq : newSearch ≠ searchFilterFromQuery s.route) :
    onStatusFilterChanged b s newStatus =
      (s, [Emit.warnUnsaved (PendingFilter.statusFilter newStatus)]) ∧
    onSearchFilterChanged b s newSearch =
      (s, [Emit.warnUnsaved (PendingFilter.searchFilter newSearch)]) ∧
    confirmPending b s (PendingFilter.statusFilter newStatus) =
      applyStatusFilter b s newStatus ∧
    confirmPending b s (PendingFilter.searchFilter newSearch) =
      applySearchFilter b s newSearch := by
  refine ⟨?_, ?_, rfl, rfl⟩
  · unfold onStatusFilterChanged
    simp [ht, hs]
  · unfold onSearchFilterChanged
    simp [ht, hq]

theorem C2_witness :
    onStatusFilterChanged bEmpty stTouched "submitted" =
      (stTouched, [Emit.warnUnsaved (PendingFilter.statusFilter
        "submitted")]) ∧
    onSearchFilterChanged bEmpty stTouched "x" =
      (stTouched, [Emit.warnUnsaved (PendingFilter.searchFilter "x")]) ∧
    confirmPending bEmpty stTouched (PendingFilter.statusFilter
      "submitted") = applyStatusFilter bEmpty stTouched "submitted" ∧
    confirmPending bEmpty stTouched (PendingFilter.searchFilter "x") =
      applySearchFilter bEmpty stTouched "x" :=
  C2_unsaved_changes_warn_before_filter bEmpty stTouched "submitted" "x"
    rfl (by decide) (by decide)

/-- C3 counterexample: paging backwards from page 1 to page 0 of an empty
queue — after the load attempt no record exists on page 0 and the page is
unchanged, yet no notification at all is dispatched, refuting the claim
that out-of-range pagination produces an informational notice regardless
of the direction of the move. -/
theorem C3_counterexample :
    (setCurrentPage bEmpty st0 0).1.records.existsRecordOn 0 = false ∧
    (setCurrentPage bEmpty st0 0).1.currentPage = 1 ∧
    (setCurrentPage bEmpty st0 0).2 = [] := by decide

/-- C3 amended: for every call to `setCurrentPage` with no fetch in flight
and a page on which no record exists (after attempting to load it),
`currentPage` is left unchanged, and an informational notification is
dispatched exactly when the requested page is ahead of the current page;
behind it, nothing is dispatched. -/
theorem C3_out_of_range_notice_only_forward (b : Backend) (s : CState)
    (newPage : Int) (hf : s.fetching = false)
    (h1 : s.records.existsRecordOn newPage = false)
    (h2 : (loadRecords b newPage s.recordStatusToFilterWith
        s.searchTextToFilterWith s.records).existsRecordOn newPage
      = false) :
    (setCurrentPage b s newPage).1.currentPage = s.currentPage ∧
    (setCurrentPage b s newPage).2 =
      if s.currentPage < newPage then [Emit.info (noMoreDataMessage s)]
      else [] := by
  unfold setCurrentPage
  simp only [hf, Bool.false_eq_true, if_false, h1, h2, noMoreDataMessage]
  split <;> simp_all

theorem C3_amended_witness :
    (setCurrentPage bEmpty st0 2).1.currentPage = st0.currentPage ∧
    (setCurrentPage bEmpty st0 2).2 =
      if st0.currentPage < 2 then [Emit.info (noMoreDataMessage st0)]
      else [] :=
  C3_out_of_range_notice_only_forward bEmpty st0 2 rfl (by decide)
    (by decide)

/-- A `fetch()` that starts on page 1 with no fetch in flight clears the
store and reloads page 1 under the current filters, leaving the page and
the search filter as they were. -/
theorem fetchOp_page1_fields (b : Backend) (s : CState)
    (hf : s.fetching = false) (hp : s.currentPage = 1) :
    (fetchOp b s).currentPage = 1 ∧
    (fetchOp b s).records = loadRecords b 1 s.recordStatusToFilterWith
      s.searchTextToFilterWith clearRecords ∧
    (fetchOp b s).searchTextToFilterWith = s.searchTextToFilterWith := by
  unfold fetchOp
  simp [hf, hp]

/-- C6: an applied status-filter change and an applied search-filter change
reset the page to 1, clear the loaded records, reload them under the new
filter value, and emit the total computed from the reloaded store. -/
theorem C6_filter_change_refetches (b : Backend) (s : CState)
    (status search : String) (hf : s.fetching = false) :
    (applyStatusFilter b s status).1.currentPage = 1 ∧
    (applyStatusFilter b s status).1.records =
      loadRecords b 1 status s.searchTextToFilterWith clearRecords ∧
    (applyStatusFilter b s status).2 =
      [checkAndEmitTotalRecords s.searchTextToFilterWith
        (loadRecords b 1 status s.searchTextToFilterWith
          clearRecords).total] ∧
    (applySearchFilter b s search).1.currentPage = 1 ∧
    (applySearchFilter b s search).1.records =
      loadRecords b 1 s.recordStatusToFilterWith search clearRecords ∧
    (applySearchFilter b s search).2 =
      [checkAndEmitTotalRecords search
        (loadRecords b 1 s.recordStatusToFilterWith search
          clearRecords).total] := by
  obtain ⟨h1p, h1t, h1st, h1se, h1f, h1r⟩ := assignCurrentPage_fields s 1
  obtain ⟨h2st, h2t, h2p, h2se, h2f, h2r⟩ :=
    assignStatus_fields (assignCurrentPage s 1) status
  obtain ⟨h3se, h3t, h3p, h3st, h3f, h3r⟩ :=
    assignSearch_fields (assignCurrentPage s 1) search
  obtain ⟨hA1, hA2, hA3⟩ := fetchOp_page1_fields b
    (assignStatus (assignCurrentPage s 1) status)
    (by rw [h2f, h1f]; exact hf) (by rw [h2p]; exact h1p)
  obtain ⟨hB1, hB2, hB3⟩ := fetchOp_page1_fields b
    (assignSearch (assignCurrentPage s 1) search)
    (by rw [h3f, h1f]; exact hf) (by rw [h3p]; exact h1p)
  simp only [applyStatusFilter, applySearchFilter]
  refine ⟨hA1, ?_, ?_, hB1, ?_, ?_⟩
  · rw [hA2, h2st, h2se, h1se]
  · rw [hA3, hA2, h2st, h2se, h1se]
  · rw [hB2, h3se, h3st, h1st]
  · rw [hB2, h3se, h3st, h1st]

theorem C6_witness :
    (applyStatusFilter bEmpty st0 "submitted").1.currentPage = 1 ∧
    (applyStatusFilter bEmpty st0 "submitted").1.records =
      loadRecords bEmpty 1 "submitted" st0.searchTextToFilterWith
        clearRecords ∧
    (applyStatusFilter bEmpty st0 "submitted").2 =
      [checkAndEmitTotalRecords st0.searchTextToFilterWith
        (loadRecords bEmpty 1 "submitted" st0.searchTextToFilterWith
          clearRecords).total] ∧
    (applySearchFilter bEmpty st0 "foo").1.currentPage = 1 ∧
    (applySearchFilter bEmpty st0 "foo").1.records =
      loadRecords bEmpty 1 st0.recordStatusToFilterWith "foo"
        clearRecords ∧
    (applySearchFilter bEmpty st0 "foo").2 =
      [checkAndEmitTotalRecords "foo"
        (loadRecords bEmpty 1 st0.recordStatusToFilterWith "foo"
          clearRecords).total] :=
  C6_filter_change_refetches bEmpty st0 "submitted" "foo" rfl

/-- C10: after a completed run of `fetch()`, either a record exists on the
current page or the current page is 1. -/
theorem C10_fetch_page_invariant (b : Backend) (s : CState)
    (hf : s.fetching = false) :
    (fetchOp b s).records.existsRecordOn (fetchOp b s).currentPage = true ∨
    (fetchOp b s).currentPage = 1 := by
  unfold fetchOp
  simp only [hf, Bool.false_eq_true, if_false]
  split
  · next hcond =>
    right
    exact (assignCurrentPage_fields _ 1).1
  · next hcond =>
    simp only [Bool.not_eq_true, Bool.and_eq_false_iff,
      Bool.not_eq_false', bne_eq_false_iff_eq] at hcond
    rcases hcond with h | h
    · left; exact h
    · right; exact h

theorem C10_witness :
    (fetchOp bEmpty st0).records.existsRecordOn
      (fetchOp bEmpty st0).currentPage = true ∨
    (fetchOp bEmpty st0).currentPage = 1 :=
  C10_fetch_page_invariant bEmpty st0 rfl

end ArgillaFeedback
